import Mathlib

/-!
Shallow embedding of the WINC1500 HTTP file-downloader orchestration logic
from src/WINC1500_HTTP/src/main21.c: the download-state flag bitmask, the
progress counters, the download starter, the packet-store progress reporter,
the HTTP client callback, the Wi-Fi callback, and the watchdog-expiry branch
of the main loop.  The 32-bit unsigned counters of the C code are modelled as
natural numbers reduced modulo 2^32 at each accumulation.  External calls
(request transmission, transport close, DHCP, reconnect, console output) are
modelled as observable effect records; console output itself carries no state
and is omitted.
-/

namespace Winc

/-- Modulus of the 32-bit unsigned counters (C type uint32_t). -/
def UINT32_MOD : Nat := 4294967296

/-- Modelled from the spec: MAIN_BUFFER_MAX_SIZE is the build-time maximum
in-memory buffer size for fully-inline responses (defined in main.h, which is
not among the sources).  The spec fixes no concrete value and no claim
depends on it; a representative build-time constant is used. -/
def MAIN_BUFFER_MAX_SIZE : Nat := 1446

/-- Modelled from the spec: the errno value EAGAIN (newlib value 11).  The
retry-eligible disconnect reason of the code is the integer -EAGAIN. -/
def EAGAIN : Int := 11

/-- The download_state value: the C code uses a bitmask with five one-bit
flags, modelled here as one Boolean field per flag.  NOT_READY is the value
with every flag clear. -/
structure DState where
  wifi_connected : Bool
  get_requested : Bool
  downloading : Bool
  completed : Bool
  canceled : Bool
  deriving DecidableEq

/-- The five single-flag masks of the download_state enumeration. -/
inductive Flag
  | WIFI_CONNECTED
  | GET_REQUESTED
  | DOWNLOADING
  | COMPLETED
  | CANCELED
  deriving DecidableEq

/-- NOT_READY: the initial download state, all flags clear. -/
def NOT_READY : DState :=
  { wifi_connected := false, get_requested := false, downloading := false
    completed := false, canceled := false }

/-- C function is_state_set: tests one flag of the bitmask. -/
def is_state_set (s : DState) : Flag → Bool
  | Flag.WIFI_CONNECTED => s.wifi_connected
  | Flag.GET_REQUESTED => s.get_requested
  | Flag.DOWNLOADING => s.downloading
  | Flag.COMPLETED => s.completed
  | Flag.CANCELED => s.canceled

/-- C function add_state: sets one flag of the bitmask (down_state |= mask). -/
def add_state (s : DState) : Flag → DState
  | Flag.WIFI_CONNECTED => { s with wifi_connected := true }
  | Flag.GET_REQUESTED => { s with get_requested := true }
  | Flag.DOWNLOADING => { s with downloading := true }
  | Flag.COMPLETED => { s with completed := true }
  | Flag.CANCELED => { s with canceled := true }

/-- C function clear_state: clears one flag of the bitmask (down_state &= ~mask). -/
def clear_state (s : DState) : Flag → DState
  | Flag.WIFI_CONNECTED => { s with wifi_connected := false }
  | Flag.GET_REQUESTED => { s with get_requested := false }
  | Flag.DOWNLOADING => { s with downloading := false }
  | Flag.COMPLETED => { s with completed := false }
  | Flag.CANCELED => { s with canceled := false }

/-- The three file-scope globals of main21.c that the orchestration mutates:
down_state, http_file_size and received_file_size. -/
structure Globals where
  down_state : DState
  http_file_size : Nat
  received_file_size : Nat
  deriving DecidableEq

/-- The initial global state: init_state() sets down_state to NOT_READY and
both counters are statically initialized to 0. -/
def Globals.init : Globals :=
  { down_state := NOT_READY, http_file_size := 0, received_file_size := 0 }

/-- Observable external effects of one handler invocation:
whether http_client_send_request was reached, whether http_client_close was
called, and whether start_download was invoked. -/
structure Effects where
  request_issued : Bool
  closed : Bool
  start_download_called : Bool
  deriving DecidableEq

/-- The no-effect record (handler performed no external call of interest). -/
def Effects.none : Effects :=
  { request_issued := false, closed := false, start_download_called := false }

/-- C function start_download: issues the HTTP GET (the returned Boolean)
unless Wi-Fi is not connected, a request is already outstanding, or a
download is already running.  The globals are never mutated by this call. -/
def start_download (g : Globals) : Globals × Bool :=
  if is_state_set g.down_state Flag.WIFI_CONNECTED = false then (g, false)
  else if is_state_set g.down_state Flag.GET_REQUESTED = true then (g, false)
  else if is_state_set g.down_state Flag.DOWNLOADING = true then (g, false)
  else (g, true)

/-- C function store_file_packet: the packet pointer is modelled by its
nullity only.  Null or empty packets are discarded; otherwise the first
packet of an attempt resets the received counter and marks DOWNLOADING, the
length is accumulated modulo 2^32 into received_file_size, and reaching the
expected length marks COMPLETED. -/
def store_file_packet (g : Globals) (dataNull : Bool) (length : Nat) : Globals :=
  if dataNull = true ∨ length < 1 then g
  else
    let g1 :=
      if is_state_set g.down_state Flag.DOWNLOADING = false then
        { g with received_file_size := 0
                 down_state := add_state g.down_state Flag.DOWNLOADING }
      else g
    if dataNull = false then
      let g2 := { g1 with received_file_size :=
                    (g1.received_file_size + length) % UINT32_MOD }
      if g2.http_file_size ≤ g2.received_file_size then
        { g2 with down_state := add_state g2.down_state Flag.COMPLETED }
      else g2
    else g1

/-- The events delivered to http_client_callback, carrying the fields the
handler reads.  Packet and inline-content pointers are modelled by their
nullity. -/
inductive HttpEvent
  | sock_connected
  | requested
  | recv_response (response_code : Nat) (content_length : Nat) (contentNull : Bool)
  | recv_chunked_data (dataNull : Bool) (length : Nat) (isComplete : Bool)
  | disconnected (reason : Int)
  deriving DecidableEq

/-- First half of the HTTP_CLIENT_CALLBACK_RECV_RESPONSE case: on status 200
record the content length and zero the received counter and continue (true);
on any other status add CANCELED and stop (false). -/
def recv_response_check (g : Globals) (code : Nat) (len : Nat) : Globals × Bool :=
  if code = 200 then
    ({ g with http_file_size := len, received_file_size := 0 }, true)
  else
    ({ g with down_state := add_state g.down_state Flag.CANCELED }, false)

/-- Second half of the HTTP_CLIENT_CALLBACK_RECV_RESPONSE case: when the
content length fits the in-memory buffer, feed the inline content to
store_file_packet, close the transport (the returned Boolean) and add
COMPLETED; otherwise do nothing. -/
def recv_response_body (g : Globals) (len : Nat) (contentNull : Bool) : Globals × Bool :=
  if len ≤ MAIN_BUFFER_MAX_SIZE then
    let g1 := store_file_packet g contentNull len
    ({ g1 with down_state := add_state g1.down_state Flag.COMPLETED }, true)
  else (g, false)

/-- C function http_client_callback: one case per event type, returning the
new globals and the observable effects of the invocation. -/
def http_client_callback (g : Globals) (ev : HttpEvent) : Globals × Effects :=
  match ev with
  | HttpEvent.sock_connected => (g, Effects.none)
  | HttpEvent.requested =>
      ({ g with down_state := add_state g.down_state Flag.GET_REQUESTED }, Effects.none)
  | HttpEvent.recv_response code len contentNull =>
      let gc := recv_response_check g code len
      if gc.2 = true then
        let gb := recv_response_body gc.1 len contentNull
        (gb.1, { request_issued := false, closed := gb.2, start_download_called := false })
      else (gc.1, Effects.none)
  | HttpEvent.recv_chunked_data dataNull len isComplete =>
      let g1 := store_file_packet g dataNull len
      if isComplete = true then
        ({ g1 with down_state := add_state g1.down_state Flag.COMPLETED },
         { request_issued := false, closed := true, start_download_called := false })
      else (g1, Effects.none)
  | HttpEvent.disconnected reason =>
      if reason = -EAGAIN then
        let g1 :=
          if is_state_set g.down_state Flag.DOWNLOADING = true then
            { g with down_state := clear_state g.down_state Flag.DOWNLOADING }
          else g
        let g2 :=
          if is_state_set g1.down_state Flag.GET_REQUESTED = true then
            { g1 with down_state := clear_state g1.down_state Flag.GET_REQUESTED }
          else g1
        let g3 := start_download g2
        (g3.1, { request_issued := g3.2, closed := false, start_download_called := true })
      else (g, Effects.none)

/-- The events delivered to wifi_cb: a connection state change (connected or
disconnected) or a DHCP address-assignment confirmation; other message types
fall through the default case. -/
inductive WifiEvent
  | con_state_changed (connected : Bool)
  | dhcp_conf
  | other_event
  deriving DecidableEq

/-- C function wifi_cb: link-up requests DHCP (external only); link-down
clears WIFI_CONNECTED and the in-flight attempt flags and reconnects
(external); an address assignment sets WIFI_CONNECTED and invokes
start_download. -/
def wifi_cb (g : Globals) (ev : WifiEvent) : Globals × Effects :=
  match ev with
  | WifiEvent.con_state_changed true => (g, Effects.none)
  | WifiEvent.con_state_changed false =>
      let g1 := { g with down_state := clear_state g.down_state Flag.WIFI_CONNECTED }
      let g2 :=
        if is_state_set g1.down_state Flag.DOWNLOADING = true then
          { g1 with down_state := clear_state g1.down_state Flag.DOWNLOADING }
        else g1
      let g3 :=
        if is_state_set g2.down_state Flag.GET_REQUESTED = true then
          { g2 with down_state := clear_state g2.down_state Flag.GET_REQUESTED }
        else g2
      (g3, Effects.none)
  | WifiEvent.dhcp_conf =>
      let g1 := { g with down_state := add_state g.down_state Flag.WIFI_CONNECTED }
      let g2 := start_download g1
      (g2.1, { request_issued := g2.2, closed := false, start_download_called := true })
  | WifiEvent.other_event => (g, Effects.none)

/-- The watchdog countdown timer: its absolute deadline in milliseconds
(an unsigned 32-bit quantity in the C code). -/
structure Timer where
  end_time : Nat
  deriving DecidableEq

/-- C function TimerCountdown: arms the timer timeout seconds after the
current millisecond clock. -/
def TimerCountdown (milliSeconds : Nat) (timeout : Nat) : Timer :=
  { end_time := (milliSeconds + timeout * 1000) % UINT32_MOD }

/-- Body of the `if (TimerIsExpired(&timer))` branch of the main loop: rearm
the watchdog for 60 seconds, and when the attempt reached COMPLETED or
CANCELED, reset down_state to NOT_READY, re-assert WIFI_CONNECTED and call
start_download (the returned Boolean is its request decision). -/
def watchdog_expired_body (milliSeconds : Nat) (g : Globals) : Timer × Globals × Bool :=
  let t := TimerCountdown milliSeconds 60
  if is_state_set g.down_state Flag.COMPLETED = true ∨
     is_state_set g.down_state Flag.CANCELED = true then
    let g1 := { g with down_state := NOT_READY }
    let g2 := { g1 with down_state := add_state g1.down_state Flag.WIFI_CONNECTED }
    let g3 := start_download g2
    (t, g3.1, g3.2)
  else (t, g, false)

/-- Folds http_client_callback over a list of HTTP-engine events. -/
def run_events (g : Globals) : List HttpEvent → Globals
  | [] => g
  | ev :: evs => run_events (http_client_callback g ev).1 evs

/-- Repeats start_download n times from a state, reporting whether any of the
calls issued a request. -/
def start_download_many (g : Globals) : Nat → Globals × Bool
  | 0 => (g, false)
  | n + 1 =>
      let g1 := start_download g
      let g2 := start_download_many g1.1 n
      (g2.1, g1.2 || g2.2)

/-- The received counter a chunk of the given length would accumulate to:
the current counter if DOWNLOADING is set, else zero, plus the length,
modulo 2^32. -/
def chunk_new_received (g : Globals) (len : Nat) : Nat :=
  ((if is_state_set g.down_state Flag.DOWNLOADING = true
    then g.received_file_size else 0) + len) % UINT32_MOD

/-- Completion condition stated from the spec's words, for comparison with
the code: an event sets COMPLETED exactly when the accumulated received
length reaches the expected length, or the engine signals the final chunk,
or the inline-body path of a status-200 headers event runs. -/
def completion_trigger (g : Globals) (ev : HttpEvent) : Bool :=
  match ev with
  | HttpEvent.recv_response code len _ =>
      decide (code = 200 ∧ len ≤ MAIN_BUFFER_MAX_SIZE)
  | HttpEvent.recv_chunked_data dataNull len isComplete =>
      isComplete ||
        decide (dataNull = false ∧ 1 ≤ len ∧
                g.http_file_size ≤ chunk_new_received g len)
  | _ => false

/-- Whether some event of the list triggers the spec's completion condition,
evaluated along the states the code itself traverses. -/
def completion_triggered (g : Globals) : List HttpEvent → Bool
  | [] => false
  | ev :: evs =>
      completion_trigger g ev ||
        completion_triggered (http_client_callback g ev).1 evs

@[simp]
lemma is_state_set_add_state (s : DState) (f f' : Flag) :
    is_state_set (add_state s f) f' = (is_state_set s f' || decide (f = f')) := by
  cases f <;> cases f' <;> simp [add_state, is_state_set]

@[simp]
lemma is_state_set_clear_state (s : DState) (f f' : Flag) :
    is_state_set (clear_state s f) f' = (is_state_set s f' && !decide (f = f')) := by
  cases f <;> cases f' <;> simp [clear_state, is_state_set]

lemma start_download_fst (g : Globals) : (start_download g).1 = g := by
  unfold start_download
  split_ifs <;> rfl

lemma start_download_snd (g : Globals) :
    (start_download g).2 =
      (is_state_set g.down_state Flag.WIFI_CONNECTED &&
       !is_state_set g.down_state Flag.GET_REQUESTED &&
       !is_state_set g.down_state Flag.DOWNLOADING) := by
  unfold start_download
  split_ifs with h1 h2 h3 <;> simp_all

lemma start_download_many_eq (g : Globals) (n : Nat) :
    start_download_many g n =
      (g, decide (1 ≤ n) &&
          (is_state_set g.down_state Flag.WIFI_CONNECTED &&
           !is_state_set g.down_state Flag.GET_REQUESTED &&
           !is_state_set g.down_state Flag.DOWNLOADING)) := by
  induction n with
  | zero => simp [start_download_many]
  | succ n ih =>
      have h1 : (1 : Nat) ≤ n + 1 := Nat.succ_le_succ (Nat.zero_le n)
      simp only [start_download_many, start_download_fst, start_download_snd, ih]
      cases hb : (is_state_set g.down_state Flag.WIFI_CONNECTED &&
           !is_state_set g.down_state Flag.GET_REQUESTED &&
           !is_state_set g.down_state Flag.DOWNLOADING) <;>
        simp [start_download_fst, start_download_snd, hb, h1]

lemma store_received (g : Globals) (dataNull : Bool) (length : Nat) :
    (store_file_packet g dataNull length).received_file_size =
      if dataNull = true ∨ length < 1 then g.received_file_size
      else chunk_new_received g length := by
  simp only [store_file_packet, chunk_new_received]
  split_ifs <;> simp_all

lemma store_http (g : Globals) (dataNull : Bool) (length : Nat) :
    (store_file_packet g dataNull length).http_file_size = g.http_file_size := by
  simp only [store_file_packet]
  split_ifs <;> simp_all

lemma store_completed (g : Globals) (dataNull : Bool) (length : Nat) :
    is_state_set (store_file_packet g dataNull length).down_state Flag.COMPLETED =
      (is_state_set g.down_state Flag.COMPLETED ||
       decide (dataNull = false ∧ 1 ≤ length ∧
               g.http_file_size ≤ chunk_new_received g length)) := by
  cases dataNull with
  | true => simp [store_file_packet]
  | false =>
      simp only [store_file_packet, chunk_new_received]
      split_ifs <;> simp_all <;> omega

lemma store_flag (g : Globals) (dataNull : Bool) (length : Nat) (f : Flag)
    (h1 : f ≠ Flag.DOWNLOADING) (h2 : f ≠ Flag.COMPLETED) :
    is_state_set (store_file_packet g dataNull length).down_state f =
      is_state_set g.down_state f := by
  simp only [store_file_packet]
  split_ifs <;>
    simp_all [decide_eq_false (Ne.symm h1), decide_eq_false (Ne.symm h2)]

lemma completed_after_callback (g : Globals) (ev : HttpEvent) :
    is_state_set (http_client_callback g ev).1.down_state Flag.COMPLETED =
      (is_state_set g.down_state Flag.COMPLETED || completion_trigger g ev) := by
  cases ev with
  | sock_connected => simp [http_client_callback, completion_trigger]
  | requested => simp [http_client_callback, completion_trigger]
  | recv_response code len contentNull =>
      by_cases hc : code = 200
      · subst hc
        by_cases hl : len ≤ MAIN_BUFFER_MAX_SIZE <;>
          simp [http_client_callback, recv_response_check, recv_response_body,
                completion_trigger, hl]
      · simp [http_client_callback, recv_response_check, completion_trigger, hc]
  | recv_chunked_data dataNull len isComplete =>
      cases isComplete <;>
        simp [http_client_callback, completion_trigger, store_completed]
  | disconnected reason =>
      by_cases hr : reason = -EAGAIN
      · simp only [http_client_callback, if_pos hr, completion_trigger]
        split_ifs <;> simp [start_download_fst]
      · simp [http_client_callback, completion_trigger, hr]

lemma completed_run_events (g : Globals) (evs : List HttpEvent) :
    is_state_set (run_events g evs).down_state Flag.COMPLETED =
      (is_state_set g.down_state Flag.COMPLETED || completion_triggered g evs) := by
  induction evs generalizing g with
  | nil => simp [run_events, completion_triggered]
  | cons ev evs ih =>
      simp [run_events, completion_triggered, ih, completed_after_callback,
            Bool.or_assoc]

/-- A representative post-headers attempt state used by the chunk scenario
and by concrete witnesses: Wi-Fi connected, request outstanding, expected
length 1000, nothing received yet. -/
def sampleG : Globals :=
  { down_state :=
      { wifi_connected := true, get_requested := true, downloading := false
        completed := false, canceled := false }
    http_file_size := 1000, received_file_size := 0 }

/-- A body chunk event carrying n bytes, non-null data, no final-chunk
signal. -/
def plainChunk (n : Nat) : HttpEvent := HttpEvent.recv_chunked_data false n false

/-- Claim C2: over every sequence of HTTP-engine events within one attempt,
COMPLETED ends set exactly when it was already set or some event triggers the
completion condition (accumulated received length reaches the expected
length, an explicit final-chunk signal, or the inline-body path of a
status-200 headers event); and against an expected length of 1000, three
chunks of 400, 400 and 200 bytes set COMPLETED exactly after the third
chunk. -/
theorem claim_C2 :
    (∀ (g : Globals) (evs : List HttpEvent),
        is_state_set (run_events g evs).down_state Flag.COMPLETED =
          (is_state_set g.down_state Flag.COMPLETED ||
           completion_triggered g evs)) ∧
    is_state_set (run_events sampleG [plainChunk 400]).down_state
        Flag.COMPLETED = false ∧
    is_state_set (run_events sampleG [plainChunk 400, plainChunk 400]).down_state
        Flag.COMPLETED = false ∧
    is_state_set (run_events sampleG
        [plainChunk 400, plainChunk 400, plainChunk 200]).down_state
        Flag.COMPLETED = true :=
  ⟨completed_run_events, by decide, by decide, by decide⟩

/-- Claim C1: start_download issues the HTTP GET exactly when WIFI_CONNECTED
is set and neither GET_REQUESTED nor DOWNLOADING is set; it never changes the
state flags or the two length counters, and any number of repeated calls
issues a request exactly under the same condition - in particular, repeated
calls while WIFI_CONNECTED is unset never issue a request. -/
theorem claim_C1 : ∀ (g : Globals) (n : Nat),
    (start_download g).1 = g ∧
    (start_download g).2 =
      (is_state_set g.down_state Flag.WIFI_CONNECTED &&
       !is_state_set g.down_state Flag.GET_REQUESTED &&
       !is_state_set g.down_state Flag.DOWNLOADING) ∧
    (start_download_many g n).1 = g ∧
    (start_download_many g n).2 =
      (decide (1 ≤ n) &&
       (is_state_set g.down_state Flag.WIFI_CONNECTED &&
        !is_state_set g.down_state Flag.GET_REQUESTED &&
        !is_state_set g.down_state Flag.DOWNLOADING)) := by
  intro g n
  refine ⟨start_download_fst g, start_download_snd g, ?_, ?_⟩
  · rw [start_download_many_eq]
  · rw [start_download_many_eq]

/-- Claim C8: a store_file_packet call with a null data pointer or a zero
length changes nothing: flags, received length and expected length are all
unchanged. -/
theorem claim_C8 : ∀ (g : Globals) (dataNull : Bool) (length : Nat),
    dataNull = true ∨ length = 0 → store_file_packet g dataNull length = g := by
  intro g dataNull length h
  have h' : dataNull = true ∨ length < 1 := by
    rcases h with h | h
    · exact Or.inl h
    · exact Or.inr (by omega)
  unfold store_file_packet
  exact if_pos h'

/-- Witness for claim C8 at a concrete null-pointer call. -/
theorem claim_C8_witness :
    ((true : Bool) = true ∨ (7 : Nat) = 0) ∧
    store_file_packet Globals.init true 7 = Globals.init :=
  ⟨Or.inl rfl, claim_C8 Globals.init true 7 (Or.inl rfl)⟩

/-- Claim C10: a non-empty chunk delivered while the expected length
http_file_size is still zero (its initial value) immediately drives the
received length to at least the expected length, so COMPLETED is set on that
very first chunk. -/
theorem claim_C10 : ∀ (g : Globals) (length : Nat),
    g.http_file_size = 0 → 1 ≤ length →
    is_state_set (store_file_packet g false length).down_state Flag.COMPLETED = true := by
  intro g length h0 h1
  simp [store_completed, h0, h1]

/-- Witness for claim C10: a first chunk of 5 bytes against the initial
globals (expected length 0) sets COMPLETED. -/
theorem claim_C10_witness :
    (Globals.init.http_file_size = 0 ∧ (1 : Nat) ≤ 5) ∧
    is_state_set (store_file_packet Globals.init false 5).down_state Flag.COMPLETED = true :=
  ⟨⟨rfl, by omega⟩, claim_C10 Globals.init 5 rfl (by omega)⟩

lemma watchdog_timer (ms : Nat) (g : Globals) :
    (watchdog_expired_body ms g).1 = TimerCountdown ms 60 := by
  unfold watchdog_expired_body
  split_ifs <;> rfl

lemma watchdog_state (ms : Nat) (g : Globals) :
    (watchdog_expired_body ms g).2.1 =
      (if is_state_set g.down_state Flag.COMPLETED = true ∨
          is_state_set g.down_state Flag.CANCELED = true
       then { g with down_state :=
                { wifi_connected := true, get_requested := false, downloading := false
                  completed := false, canceled := false } }
       else g) := by
  unfold watchdog_expired_body
  split_ifs with h <;>
    simp_all [start_download_fst, NOT_READY, add_state]

lemma watchdog_issued (ms : Nat) (g : Globals) :
    (watchdog_expired_body ms g).2.2 =
      decide (is_state_set g.down_state Flag.COMPLETED = true ∨
              is_state_set g.down_state Flag.CANCELED = true) := by
  unfold watchdog_expired_body
  split_ifs with h <;>
    simp_all [start_download, NOT_READY, add_state, is_state_set]

/-- Claim C4: every watchdog expiry rearms the watchdog for the 60-second
recurring window; when COMPLETED or CANCELED is set the state is reset to
NOT_READY with WIFI_CONNECTED re-asserted and start_download issues the next
request; otherwise the globals are untouched and no request is issued. -/
theorem claim_C4 : ∀ (ms : Nat) (g : Globals),
    (watchdog_expired_body ms g).1.end_time = (ms + 60 * 1000) % UINT32_MOD ∧
    (watchdog_expired_body ms g).2.1 =
      (if is_state_set g.down_state Flag.COMPLETED = true ∨
          is_state_set g.down_state Flag.CANCELED = true
       then { g with down_state :=
                { wifi_connected := true, get_requested := false, downloading := false
                  completed := false, canceled := false } }
       else g) ∧
    (watchdog_expired_body ms g).2.2 =
      decide (is_state_set g.down_state Flag.COMPLETED = true ∨
              is_state_set g.down_state Flag.CANCELED = true) := by
  intro ms g
  refine ⟨?_, watchdog_state ms g, watchdog_issued ms g⟩
  rw [watchdog_timer]
  rfl

/-- Claim C5: a headers event with status 200 records the content length as
the expected total and zeroes the received length before any inline-body
handling; any other status adds CANCELED and stops processing the event, so
the counters and the other flags stay untouched and the inline-body path is
never reached. -/
theorem claim_C5 : ∀ (g : Globals) (code len : Nat) (contentNull : Bool),
    (code = 200 →
       recv_response_check g code len =
         ({ g with http_file_size := len, received_file_size := 0 }, true) ∧
       (http_client_callback g
           (HttpEvent.recv_response code len contentNull)).1.http_file_size = len) ∧
    (code ≠ 200 →
       http_client_callback g (HttpEvent.recv_response code len contentNull) =
         ({ g with down_state := add_state g.down_state Flag.CANCELED },
          Effects.none)) := by
  intro g code len contentNull
  constructor
  · intro hc
    subst hc
    refine ⟨by simp [recv_response_check], ?_⟩
    by_cases hl : len ≤ MAIN_BUFFER_MAX_SIZE <;>
      simp [http_client_callback, recv_response_check, recv_response_body, hl,
            store_http]
  · intro hc
    simp [http_client_callback, recv_response_check, hc]

/-- Witness for claim C5 at a 200 response and at a 404 response. -/
theorem claim_C5_witness :
    (recv_response_check sampleG 200 321 =
       ({ sampleG with http_file_size := 321, received_file_size := 0 }, true)) ∧
    (http_client_callback sampleG (HttpEvent.recv_response 404 9 true) =
       ({ sampleG with down_state := add_state sampleG.down_state Flag.CANCELED },
        Effects.none)) :=
  ⟨((claim_C5 sampleG 200 321 true).1 rfl).1,
   (claim_C5 sampleG 404 9 true).2 (by decide)⟩

/-- Claim C6: a 200 headers event whose content length fits the in-memory
buffer feeds the inline body to store_file_packet, closes the transport and
sets COMPLETED, all within that single event. -/
theorem claim_C6 : ∀ (g : Globals) (len : Nat) (contentNull : Bool),
    len ≤ MAIN_BUFFER_MAX_SIZE →
    http_client_callback g (HttpEvent.recv_response 200 len contentNull) =
      (let g1 : Globals := { g with http_file_size := len, received_file_size := 0 }
       let g2 := store_file_packet g1 contentNull len
       ({ g2 with down_state := add_state g2.down_state Flag.COMPLETED },
        { request_issued := false, closed := true, start_download_called := false })) := by
  intro g len contentNull hl
  simp [http_client_callback, recv_response_check, recv_response_body, hl]

/-- Witness for claim C6: a 100-byte inline body against the sample state. -/
theorem claim_C6_witness :
    (100 ≤ MAIN_BUFFER_MAX_SIZE) ∧
    http_client_callback sampleG (HttpEvent.recv_response 200 100 false) =
      (let g1 : Globals := { sampleG with http_file_size := 100, received_file_size := 0 }
       let g2 := store_file_packet g1 false 100
       ({ g2 with down_state := add_state g2.down_state Flag.COMPLETED },
        { request_issued := false, closed := true, start_download_called := false })) :=
  ⟨by decide, claim_C6 sampleG 100 false (by decide)⟩

lemma clear_state_id (s : DState) (f : Flag) (h : is_state_set s f = false) :
    clear_state s f = s := by
  cases s
  cases f <;> simp_all [clear_state, is_state_set]

/-- Claim C7: a disconnected event with the retry-eligible reason -EAGAIN
clears DOWNLOADING and GET_REQUESTED (when set) and immediately invokes
start_download within the same event, issuing a request exactly when
WIFI_CONNECTED is set; any other disconnect reason changes no flag and
issues nothing. -/
theorem claim_C7 : ∀ (g : Globals) (reason : Int),
    (reason = -EAGAIN →
       http_client_callback g (HttpEvent.disconnected reason) =
         ({ g with down_state :=
              (clear_state (clear_state g.down_state Flag.DOWNLOADING)
                Flag.GET_REQUESTED) },
          { request_issued := is_state_set g.down_state Flag.WIFI_CONNECTED,
            closed := false, start_download_called := true })) ∧
    (reason ≠ -EAGAIN →
       http_client_callback g (HttpEvent.disconnected reason) =
         (g, Effects.none)) := by
  intro g reason
  constructor
  · intro hr
    simp only [http_client_callback, if_pos hr]
    split_ifs with hd hg hg <;>
      simp_all [start_download_fst, start_download_snd, clear_state_id,
                Prod.ext_iff]
  · intro hr
    simp [http_client_callback, hr]

/-- Witness for claim C7 at the retry-eligible reason -EAGAIN and at the
server-close reason -104. -/
theorem claim_C7_witness :
    (http_client_callback sampleG (HttpEvent.disconnected (-EAGAIN)) =
       ({ sampleG with down_state :=
            (clear_state (clear_state sampleG.down_state Flag.DOWNLOADING)
              Flag.GET_REQUESTED) },
        { request_issued := is_state_set sampleG.down_state Flag.WIFI_CONNECTED,
          closed := false, start_download_called := true })) ∧
    (http_client_callback sampleG (HttpEvent.disconnected (-104)) =
       (sampleG, Effects.none)) :=
  ⟨(claim_C7 sampleG (-EAGAIN)).1 rfl, (claim_C7 sampleG (-104)).2 (by decide)⟩

lemma callback_completed_mono (g : Globals) (ev : HttpEvent)
    (h : is_state_set g.down_state Flag.COMPLETED = true) :
    is_state_set (http_client_callback g ev).1.down_state Flag.COMPLETED = true := by
  rw [completed_after_callback, h, Bool.true_or]

lemma callback_canceled_mono (g : Globals) (ev : HttpEvent)
    (h : is_state_set g.down_state Flag.CANCELED = true) :
    is_state_set (http_client_callback g ev).1.down_state Flag.CANCELED = true := by
  cases ev with
  | sock_connected => simpa [http_client_callback] using h
  | requested => simp [http_client_callback, h]
  | recv_response code len contentNull =>
      by_cases hc : code = 200
      · subst hc
        by_cases hl : len ≤ MAIN_BUFFER_MAX_SIZE <;>
          simp [http_client_callback, recv_response_check, recv_response_body,
                hl, store_flag, h]
      · simp [http_client_callback, recv_response_check, hc, h]
  | recv_chunked_data dataNull len isComplete =>
      cases isComplete <;> simp [http_client_callback, store_flag, h]
  | disconnected reason =>
      by_cases hr : reason = -EAGAIN
      · simp only [http_client_callback, if_pos hr]
        split_ifs <;> simp_all [start_download_fst]
      · simpa [http_client_callback, hr] using h

lemma wifi_cb_flag (g : Globals) (wev : WifiEvent) (f : Flag)
    (h1 : ¬(Flag.WIFI_CONNECTED = f)) (h2 : ¬(Flag.GET_REQUESTED = f))
    (h3 : ¬(Flag.DOWNLOADING = f)) :
    is_state_set (wifi_cb g wev).1.down_state f = is_state_set g.down_state f := by
  have d1 := decide_eq_false h1
  have d2 := decide_eq_false h2
  have d3 := decide_eq_false h3
  cases wev with
  | con_state_changed b =>
      cases b
      · simp only [wifi_cb]
        split_ifs <;> simp [d1, d2, d3]
      · rfl
  | dhcp_conf => simp [wifi_cb, start_download_fst, d1]
  | other_event => rfl

lemma callback_issued (g : Globals) (ev : HttpEvent) :
    (http_client_callback g ev).2.request_issued =
      (match ev with
       | HttpEvent.disconnected r =>
           decide (r = -EAGAIN) && is_state_set g.down_state Flag.WIFI_CONNECTED
       | _ => false) := by
  cases ev with
  | sock_connected => rfl
  | requested => rfl
  | recv_response code len contentNull =>
      by_cases hc : code = 200 <;> by_cases hl : len ≤ MAIN_BUFFER_MAX_SIZE <;>
        simp [http_client_callback, recv_response_check, recv_response_body,
              hc, hl, Effects.none]
  | recv_chunked_data dataNull len isComplete =>
      cases isComplete <;> simp [http_client_callback, Effects.none]
  | disconnected r =>
      by_cases hr : r = -EAGAIN
      · simp only [http_client_callback, if_pos hr]
        split_ifs <;> simp_all [start_download_snd]
      · simp [http_client_callback, hr, Effects.none]

lemma wifi_cb_issued (g : Globals) (wev : WifiEvent) :
    (wifi_cb g wev).2.request_issued =
      (match wev with
       | WifiEvent.dhcp_conf =>
           !is_state_set g.down_state Flag.GET_REQUESTED &&
           !is_state_set g.down_state Flag.DOWNLOADING
       | _ => false) := by
  cases wev with
  | con_state_changed b => cases b <;> rfl
  | dhcp_conf => simp [wifi_cb, start_download_snd]
  | other_event => rfl

/-- The state after connecting (address assigned), completing the request
handshake and receiving a 404 response: WIFI_CONNECTED, GET_REQUESTED and
CANCELED are set.  It is the state of the spec's scenario B. -/
def cex_C3_state : Globals :=
  (http_client_callback
    (http_client_callback
      (wifi_cb Globals.init WifiEvent.dhcp_conf).1
      HttpEvent.requested).1
    (HttpEvent.recv_response 404 0 true)).1

/-- Counterexample to claim C3 as stated: from the reachable state in which
CANCELED is set (after a 404 response), a disconnected event with reason
-EAGAIN makes the event handler issue a new HTTP request even though the
terminal flag is still set - start_download never checks COMPLETED or
CANCELED. -/
theorem claim_C3_counterexample :
    is_state_set cex_C3_state.down_state Flag.CANCELED = true ∧
    (http_client_callback cex_C3_state
        (HttpEvent.disconnected (-EAGAIN))).2.request_issued = true := by
  decide

/-- Claim C3 (amended): from any state with COMPLETED or CANCELED set, no
event-dispatch transition (http_client_callback or wifi_cb) ever clears the
terminal flags - only the watchdog reset does; but a new HTTP request can
still be issued while a terminal flag is set: http_client_callback issues
one exactly on a disconnected(-EAGAIN) event with WIFI_CONNECTED set, and
wifi_cb exactly on an address-assigned event with GET_REQUESTED and
DOWNLOADING both unset. -/
theorem claim_C3_amended : ∀ (g : Globals) (hev : HttpEvent) (wev : WifiEvent) (ms : Nat),
    (is_state_set g.down_state Flag.COMPLETED = true →
       is_state_set (http_client_callback g hev).1.down_state Flag.COMPLETED = true ∧
       is_state_set (wifi_cb g wev).1.down_state Flag.COMPLETED = true) ∧
    (is_state_set g.down_state Flag.CANCELED = true →
       is_state_set (http_client_callback g hev).1.down_state Flag.CANCELED = true ∧
       is_state_set (wifi_cb g wev).1.down_state Flag.CANCELED = true) ∧
    (is_state_set g.down_state Flag.COMPLETED = true ∨
     is_state_set g.down_state Flag.CANCELED = true →
       ((http_client_callback g hev).2.request_issued = true ↔
          hev = HttpEvent.disconnected (-EAGAIN) ∧
          is_state_set g.down_state Flag.WIFI_CONNECTED = true) ∧
       ((wifi_cb g wev).2.request_issued = true ↔
          wev = WifiEvent.dhcp_conf ∧
          is_state_set g.down_state Flag.GET_REQUESTED = false ∧
          is_state_set g.down_state Flag.DOWNLOADING = false) ∧
       (is_state_set (watchdog_expired_body ms g).2.1.down_state Flag.COMPLETED = false ∧
        is_state_set (watchdog_expired_body ms g).2.1.down_state Flag.CANCELED = false)) := by
  intro g hev wev ms
  refine ⟨?_, ?_, ?_⟩
  · intro h
    refine ⟨callback_completed_mono g hev h, ?_⟩
    rw [wifi_cb_flag g wev Flag.COMPLETED (by decide) (by decide) (by decide)]
    exact h
  · intro h
    refine ⟨callback_canceled_mono g hev h, ?_⟩
    rw [wifi_cb_flag g wev Flag.CANCELED (by decide) (by decide) (by decide)]
    exact h
  · intro h
    refine ⟨?_, ?_, ?_⟩
    · rw [callback_issued]
      cases hev <;> simp
    · rw [wifi_cb_issued]
      cases wev <;> simp
    · rw [watchdog_state, if_pos h]
      exact ⟨rfl, rfl⟩

/-- The terminal sample state for the amended-claim witness: WIFI_CONNECTED,
GET_REQUESTED and CANCELED set. -/
def gTerm : Globals :=
  { down_state :=
      { wifi_connected := true, get_requested := true, downloading := false
        completed := false, canceled := true }
    http_file_size := 1000, received_file_size := 0 }

/-- Witness for the amended claim C3 at a concrete terminal state: the
retry disconnect still issues a request, no handler clears CANCELED, and the
watchdog reset does clear it. -/
theorem claim_C3_amended_witness :
    (http_client_callback gTerm
        (HttpEvent.disconnected (-EAGAIN))).2.request_issued = true ∧
    is_state_set (wifi_cb gTerm WifiEvent.other_event).1.down_state Flag.CANCELED = true ∧
    is_state_set (watchdog_expired_body 0 gTerm).2.1.down_state Flag.CANCELED = false := by
  have h := claim_C3_amended gTerm (HttpEvent.disconnected (-EAGAIN))
    WifiEvent.other_event 0
  refine ⟨?_, ?_, ?_⟩
  · exact (h.2.2 (Or.inr (by decide))).1.mpr ⟨rfl, by decide⟩
  · exact (h.2.1 (by decide)).2
  · exact (h.2.2 (Or.inr (by decide))).2.2.2

lemma callback_received_chunk (g : Globals) (dataNull : Bool) (len : Nat)
    (isComplete : Bool) :
    (http_client_callback g
        (HttpEvent.recv_chunked_data dataNull len isComplete)).1.received_file_size =
      (store_file_packet g dataNull len).received_file_size := by
  cases isComplete <;> simp [http_client_callback]

/-- A mid-attempt state whose received counter sits two bytes below the
32-bit wraparound point (reachable with two maximal-length chunks). -/
def gWrap : Globals :=
  { down_state :=
      { wifi_connected := true, get_requested := true, downloading := true
        completed := false, canceled := false }
    http_file_size := 4294967295, received_file_size := 4294967294 }

/-- Counterexample to claim C9 as stated: received_file_size is a 32-bit
unsigned counter, so a chunk that pushes the total past 2^32 wraps it
around and the received length decreases mid-attempt (DOWNLOADING stays
set and no reset path is taken). -/
theorem claim_C9_counterexample :
    is_state_set gWrap.down_state Flag.DOWNLOADING = true ∧
    (store_file_packet gWrap false 3).received_file_size <
      gWrap.received_file_size := by
  decide

/-- Claim C9 (amended): within one attempt the received length is
non-decreasing across every chunk call provided the accumulated total stays
below 2^32 (no wraparound of the 32-bit counter); a chunk that finds
DOWNLOADING unset resets the counter to zero and then accumulates (attempt
start); and across every HTTP-engine event the received length can decrease
only at an attempt start (a status-200 headers event, or a chunk finding
DOWNLOADING unset) or on 32-bit overflow. -/
theorem claim_C9_amended : ∀ (g : Globals) (dataNull : Bool) (len : Nat) (ev : HttpEvent),
    (is_state_set g.down_state Flag.DOWNLOADING = true →
       g.received_file_size + len < UINT32_MOD →
       g.received_file_size ≤ (store_file_packet g dataNull len).received_file_size) ∧
    (is_state_set g.down_state Flag.DOWNLOADING = false → dataNull = false →
       1 ≤ len →
       (store_file_packet g dataNull len).received_file_size = len % UINT32_MOD) ∧
    ((http_client_callback g ev).1.received_file_size < g.received_file_size →
       (∃ len2 cn, ev = HttpEvent.recv_response 200 len2 cn) ∨
       (∃ dn len2 ic, ev = HttpEvent.recv_chunked_data dn len2 ic ∧
          (is_state_set g.down_state Flag.DOWNLOADING = false ∨
           UINT32_MOD ≤ g.received_file_size + len2))) := by
  intro g dataNull len ev
  refine ⟨?_, ?_, ?_⟩
  · intro hd hb
    rw [store_received]
    split_ifs with h
    · exact Nat.le_refl _
    · unfold chunk_new_received
      rw [if_pos hd, Nat.mod_eq_of_lt hb]
      exact Nat.le_add_right _ _
  · intro hd hdn h1
    have hng : ¬(dataNull = true ∨ len < 1) := by
      rintro (h2 | h2)
      · rw [hdn] at h2
        exact Bool.false_ne_true h2
      · omega
    rw [store_received, if_neg hng]
    unfold chunk_new_received
    rw [if_neg (by simp [hd]), Nat.zero_add]
  · intro hlt
    cases ev with
    | sock_connected => exact absurd hlt (lt_irrefl _)
    | requested =>
        simp only [http_client_callback] at hlt
        exact absurd hlt (lt_irrefl _)
    | recv_response code len2 cn =>
        by_cases hc : code = 200
        · exact Or.inl ⟨len2, cn, by rw [hc]⟩
        · simp only [http_client_callback, recv_response_check, if_neg hc] at hlt
          simp at hlt
    | recv_chunked_data dn len2 ic =>
        refine Or.inr ⟨dn, len2, ic, rfl, ?_⟩
        rw [callback_received_chunk, store_received] at hlt
        split_ifs at hlt with h
        · exact absurd hlt (lt_irrefl _)
        · by_cases hd : is_state_set g.down_state Flag.DOWNLOADING = true
          · refine Or.inr ?_
            unfold chunk_new_received UINT32_MOD at hlt
            rw [if_pos hd] at hlt
            unfold UINT32_MOD
            omega
          · simp only [Bool.not_eq_true] at hd
            exact Or.inl hd
    | disconnected r =>
        by_cases hr : r = -EAGAIN
        · simp only [http_client_callback, if_pos hr] at hlt
          split_ifs at hlt <;> rw [start_download_fst] at hlt <;>
            exact absurd hlt (lt_irrefl _)
        · simp only [http_client_callback, if_neg hr] at hlt
          exact absurd hlt (lt_irrefl _)

/-- A mid-download state used by the amended-claim witness: DOWNLOADING set,
10 bytes received of an expected 1000. -/
def gMid : Globals :=
  { down_state :=
      { wifi_connected := true, get_requested := true, downloading := true
        completed := false, canceled := false }
    http_file_size := 1000, received_file_size := 10 }

/-- Witness for the amended claim C9 at concrete inputs: a 5-byte chunk in a
mid-download state does not decrease the counter, an attempt-start chunk of
7 bytes leaves exactly 7 bytes recorded, and the only decreasing event among
the concrete ones exercised is a status-200 headers event. -/
theorem claim_C9_amended_witness :
    (gMid.received_file_size ≤ (store_file_packet gMid false 5).received_file_size) ∧
    ((store_file_packet sampleG false 7).received_file_size = 7 % UINT32_MOD) ∧
    ((∃ len2 cn, HttpEvent.recv_response 200 0 true =
        HttpEvent.recv_response 200 len2 cn) ∨
     (∃ dn len2 ic, HttpEvent.recv_response 200 0 true =
        HttpEvent.recv_chunked_data dn len2 ic ∧
        (is_state_set gMid.down_state Flag.DOWNLOADING = false ∨
         UINT32_MOD ≤ gMid.received_file_size + len2))) := by
  refine ⟨?_, ?_, ?_⟩
  · exact (claim_C9_amended gMid false 5 HttpEvent.sock_connected).1
      (by decide) (by decide)
  · exact (claim_C9_amended sampleG false 7 HttpEvent.sock_connected).2.1
      (by decide) rfl (by decide)
  · exact (claim_C9_amended gMid false 5 (HttpEvent.recv_response 200 0 true)).2.2
      (by decide)

end Winc
